import Mathlib

/-!
Shallow embedding of `src/services/blockIdMonitor.ts` from the
starfall-evolve repository (the `BlockIdMonitorService` class), together
with proofs checking the specification's claims about it.

Modelling conventions:
* A JavaScript callback function object is identified by a natural number;
  `===` on function objects becomes equality of identifiers.  The observable
  behaviour of a callback during one notification fan-out is a `CbAction`:
  it returns normally, throws, or calls the unsubscribe closure returned by
  `subscribe` for some callback identifier (and then returns).  An
  environment `env : Nat → CbAction` fixes the behaviour of every callback
  for one poll cycle.
* `Array.prototype.forEach` is modelled faithfully: the length of the array
  is captured before the first iteration, the loop walks indices `0 ..
  len-1` over the live array, and an index that no longer exists (because a
  `splice` shrank the array) is skipped.
* `Math.floor(Math.random() * n)` draws and `new Date().toISOString()`
  values are explicit inputs (`PollRandom`): the fallback branch of
  `checkBlockStatus` calls `Math.random()` twice for the two `block_${...}`
  template strings (once for `block_id`, once inside the `changed` field),
  so the two draws are separate fields `rid` and `rchg`.
* An exception escaping the body of the `async` method `checkBlockStatus`
  (hence rejecting its promise) is recorded in the `raised` flag of the
  poll result.  Console output is recorded as a list of `LogEvent`s.
* `setInterval` / `clearInterval` are modelled by a scheduler: a `World`
  holds the set of registered interval handles, and a timer tick fires a
  poll only when its handle is still registered.
-/

/-- Behaviour of one registered callback when it is invoked during a
notification fan-out. -/
inductive CbAction where
  | ret
  | throws
  | unsub (target : Nat)
deriving Repr, DecidableEq

/-- The `BlockInfo` interface of `blockIdMonitor.ts`. -/
structure BlockInfo where
  block_id : String
  block_hash : String
  block_number : Nat
  created_at : String
  is_active : Bool
  block_type : String
  timestamp : String
  changed : Bool
deriving Repr, DecidableEq

/-- The `BlockStatusResponse` interface of `blockIdMonitor.ts`. -/
structure BlockStatusResponse where
  success : Bool
  block_info : Option BlockInfo
  error : Option String
deriving Repr, DecidableEq

/-- Outcome of `await fetch(...)` followed by `await response.json()`:
either a parsed `BlockStatusResponse`, or a thrown transport/parse error. -/
inductive FetchResult where
  | ok (data : BlockStatusResponse)
  | fail
deriving Repr, DecidableEq

/-- Mutable fields of the `BlockIdMonitorService` class. -/
structure MonitorState where
  isMonitoring : Bool
  monitoringInterval : Option Nat
  callbacks : List Nat
  currentBlockId : Option String
deriving Repr, DecidableEq

/-- Console output events of the monitor, abstracted from the message
strings of the source. -/
inductive LogEvent where
  | changedLog (old : Option String) (new : String)
  | callbackError (cb : Nat)
  | statusWarn (err : Option String)
  | mockLog
  | alreadyActiveWarn
  | startingLog
  | stoppedLog
deriving Repr, DecidableEq

/-- The pseudo-random draws and clock reads consumed by one execution of
the fallback branch of `checkBlockStatus`, in source order:
`rid` for the `block_id` template, `rhash` for `block_hash`, `rnum` for
`block_number`, `rchg` for the second `block_${...}` template inside the
`changed` field, and `t1`, `t2` for the two `toISOString()` calls. -/
structure PollRandom where
  rid : Nat
  rhash : String
  rnum : Nat
  rchg : Nat
  t1 : String
  t2 : String
deriving Repr, DecidableEq

/-- JavaScript array indexing `arr[k]` on the callback list. -/
def nthCb : List Nat → Nat → Option Nat
  | [], _ => none
  | c :: _, 0 => some c
  | _ :: rest, k + 1 => nthCb rest k

/-- The `indexOf` search performed by the unsubscribe closure returned by
`subscribe` (accumulator `i` is the index of the head of the list). -/
def indexOfAux (cb : Nat) : List Nat → Nat → Option Nat
  | [], _ => none
  | c :: rest, i => if c = cb then some i else indexOfAux cb rest (i + 1)

/-- `this.callbacks.indexOf(callback)` followed by
`this.callbacks.splice(index, 1)` under the `index !== -1` guard:
removes the first occurrence of `cb`, if any. -/
def spliceOut (cb : Nat) (cbs : List Nat) : List Nat :=
  match indexOfAux cb cbs 0 with
  | none => cbs
  | some i => cbs.eraseIdx i

/-- Result of one `this.callbacks.forEach(...)` fan-out: the callback array
after the loop (callbacks may have unsubscribed during it), the identifiers
invoked in order, the identifiers whose exception was caught by the
per-callback `try`/`catch` (present only on the successful-fetch path),
and whether an uncaught exception escaped the loop. -/
structure FanOutResult where
  callbacks : List Nat
  invoked : List Nat
  caught : List Nat
  raised : Bool
deriving Repr, DecidableEq

/-- One iteration bound of the `forEach` loop: `fuel` iterations remain,
`k` is the current index into the live array `cbs`.  When `catchE` is
`true` a throwing callback is caught and logged (the successful-fetch
fan-out); when it is `false` the exception escapes and ends the loop (the
fallback fan-out). -/
def fanOutAux (catchE : Bool) (env : Nat → CbAction) :
    Nat → Nat → List Nat → List Nat → List Nat → FanOutResult
  | 0, _, cbs, inv, caught => { callbacks := cbs, invoked := inv, caught := caught, raised := false }
  | fuel + 1, k, cbs, inv, caught =>
    match nthCb cbs k with
    | none => fanOutAux catchE env fuel (k + 1) cbs inv caught
    | some c =>
      match env c with
      | CbAction.ret => fanOutAux catchE env fuel (k + 1) cbs (inv ++ [c]) caught
      | CbAction.throws =>
        if catchE then
          fanOutAux catchE env fuel (k + 1) cbs (inv ++ [c]) (caught ++ [c])
        else
          { callbacks := cbs, invoked := inv ++ [c], caught := caught, raised := true }
      | CbAction.unsub t => fanOutAux catchE env fuel (k + 1) (spliceOut t cbs) (inv ++ [c]) caught

/-- `this.callbacks.forEach(callback => ...)`: the iteration bound is the
length of the array at the start of the loop. -/
def fanOut (catchE : Bool) (env : Nat → CbAction) (cbs : List Nat) : FanOutResult :=
  fanOutAux catchE env cbs.length 0 cbs [] []

/-- The `mockBlockInfo` object literal built in the `catch` branch of
`checkBlockStatus` (lines 115-124 of the source).  Note that `changed`
compares `this.currentBlockId` against a second, independently drawn
`block_${Math.floor(Math.random() * 1000)}` string, not against the
snapshot's own `block_id`. -/
def mockBlockInfo (cur : Option String) (r : PollRandom) : BlockInfo :=
  { block_id := "block_" ++ toString r.rid
    block_hash := r.rhash
    block_number := r.rnum
    created_at := r.t1
    is_active := true
    block_type := "deployment"
    timestamp := r.t2
    changed := cur != some ("block_" ++ toString r.rchg) }

/-- Observable outcome of one execution of `checkBlockStatus`: the monitor
state afterwards, the callbacks invoked (in order), the callbacks whose
exception was caught, whether an uncaught exception escaped the method
body (rejecting its promise), the snapshot passed to the callbacks (if a
fan-out ran), and console output. -/
structure PollResult where
  state : MonitorState
  invoked : List Nat
  caught : List Nat
  raised : Bool
  payload : Option BlockInfo
  logs : List LogEvent
deriving Repr, DecidableEq

/-- The `checkBlockStatus` method (lines 85-131 of the source).  `fr` is
the outcome of the fetch/parse, `r` the random draws consumed on the
fallback path, `env` the behaviour of each callback. -/
def checkBlockStatus (env : Nat → CbAction) (fr : FetchResult) (r : PollRandom)
    (s : MonitorState) : PollResult :=
  match fr with
  | FetchResult.ok data =>
    match data.success, data.block_info with
    | true, some blockInfo =>
      if s.currentBlockId = some blockInfo.block_id then
        { state := s, invoked := [], caught := [], raised := false, payload := none, logs := [] }
      else
        let fo := fanOut true env s.callbacks
        { state := { s with currentBlockId := some blockInfo.block_id, callbacks := fo.callbacks }
          invoked := fo.invoked
          caught := fo.caught
          raised := fo.raised
          payload := some { blockInfo with changed := true }
          logs := LogEvent.changedLog s.currentBlockId blockInfo.block_id ::
                    fo.caught.map LogEvent.callbackError }
    | _, _ =>
      { state := s, invoked := [], caught := [], raised := false, payload := none
        logs := [LogEvent.statusWarn data.error] }
  | FetchResult.fail =>
    let mi := mockBlockInfo s.currentBlockId r
    if s.currentBlockId = some mi.block_id then
      { state := s, invoked := [], caught := [], raised := false, payload := none
        logs := [LogEvent.mockLog] }
    else
      let fo := fanOut false env s.callbacks
      { state := { s with currentBlockId := some mi.block_id, callbacks := fo.callbacks }
        invoked := fo.invoked
        caught := fo.caught
        raised := fo.raised
        payload := some mi
        logs := [LogEvent.mockLog] }

/-- The `subscribe` method: pushes the callback onto the list. -/
def subscribe (cb : Nat) (s : MonitorState) : MonitorState :=
  { s with callbacks := s.callbacks ++ [cb] }

/-- The unsubscribe closure returned by `subscribe`: `indexOf` the callback
and `splice` it out when found. -/
def unsubscribe (cb : Nat) (s : MonitorState) : MonitorState :=
  { s with callbacks := spliceOut cb s.callbacks }

/-- Outcome of `startMonitoring`: the state afterwards, console output, the
interval handle registered with the scheduler (if any), and whether the
immediate `checkBlockStatus()` call of line 46 was made. -/
structure StartResult where
  state : MonitorState
  logs : List LogEvent
  scheduled : Option Nat
  immediatePoll : Bool
deriving Repr, DecidableEq

/-- The `startMonitoring` method (lines 31-47).  `fresh` is the interval
handle `setInterval` would return. -/
def startMonitoring (fresh : Nat) (s : MonitorState) : StartResult :=
  if s.isMonitoring then
    { state := s, logs := [LogEvent.alreadyActiveWarn], scheduled := none, immediatePoll := false }
  else
    { state := { s with isMonitoring := true, monitoringInterval := some fresh }
      logs := [LogEvent.startingLog]
      scheduled := some fresh
      immediatePoll := true }

/-- Outcome of `stopMonitoring`: the state afterwards, console output, and
the interval handle passed to `clearInterval` (if any). -/
structure StopResult where
  state : MonitorState
  logs : List LogEvent
  cleared : Option Nat
deriving Repr, DecidableEq

/-- The `stopMonitoring` method (lines 52-65). -/
def stopMonitoring (s : MonitorState) : StopResult :=
  if !s.isMonitoring then
    { state := s, logs := [], cleared := none }
  else
    let s1 := { s with isMonitoring := false }
    match s1.monitoringInterval with
    | some t =>
      { state := { s1 with monitoringInterval := none }
        logs := [LogEvent.stoppedLog]
        cleared := some t }
    | none => { state := s1, logs := [LogEvent.stoppedLog], cleared := none }

/-- A world: the monitor state together with the event-loop scheduler (the
interval handles currently registered by `setInterval` and not yet passed
to `clearInterval`), a fresh-handle counter, and a count of the scheduled
polls that have fired. -/
structure World where
  mon : MonitorState
  activeTimers : List Nat
  nextTimer : Nat
  pollsFired : Nat

/-- External events driving the monitor: a timer tick (which fires a poll
only if its interval handle is still registered), and the public API
calls.  A tick and a start carry the fetch outcome, random draws and
callback behaviours their poll would consume. -/
inductive Event where
  | tick (t : Nat) (env : Nat → CbAction) (fr : FetchResult) (r : PollRandom)
  | callStart (env : Nat → CbAction) (fr : FetchResult) (r : PollRandom)
  | callStop
  | callSubscribe (cb : Nat)
  | callUnsubscribe (cb : Nat)

/-- Whether an event is a `startMonitoring` call. -/
def Event.isStart : Event → Bool
  | Event.callStart _ _ _ => true
  | _ => false

/-- One step of the event loop. -/
def stepEvent (w : World) (e : Event) : World :=
  match e with
  | Event.tick t env fr r =>
    if t ∈ w.activeTimers then
      { w with mon := (checkBlockStatus env fr r w.mon).state, pollsFired := w.pollsFired + 1 }
    else w
  | Event.callStart env fr r =>
    let sr := startMonitoring w.nextTimer w.mon
    let mon2 := if sr.immediatePoll then (checkBlockStatus env fr r sr.state).state else sr.state
    match sr.scheduled with
    | some t =>
      { w with mon := mon2, activeTimers := w.activeTimers ++ [t], nextTimer := w.nextTimer + 1 }
    | none => { w with mon := mon2 }
  | Event.callStop =>
    let sr := stopMonitoring w.mon
    match sr.cleared with
    | some t => { w with mon := sr.state, activeTimers := w.activeTimers.erase t }
    | none => { w with mon := sr.state }
  | Event.callSubscribe cb => { w with mon := subscribe cb w.mon }
  | Event.callUnsubscribe cb => { w with mon := unsubscribe cb w.mon }

/-- A sample snapshot used to instantiate theorems at concrete inputs. -/
def sampleBlockInfo : BlockInfo :=
  { block_id := "block_001", block_hash := "h", block_number := 1, created_at := "c"
    is_active := true, block_type := "deployment", timestamp := "ts", changed := false }

/-- A sample successful response carrying `sampleBlockInfo`. -/
def sampleData : BlockStatusResponse :=
  { success := true, block_info := some sampleBlockInfo, error := none }

/-- Sample random draws for the fallback branch. -/
def sampleRandom : PollRandom :=
  { rid := 7, rhash := "h", rnum := 1, rchg := 5, t1 := "t1", t2 := "t2" }

/-- The environment in which every callback returns normally. -/
def envRet : Nat → CbAction := fun _ => CbAction.ret

example : (checkBlockStatus envRet (FetchResult.ok sampleData) sampleRandom
    { isMonitoring := true, monitoringInterval := some 0, callbacks := [0, 1], currentBlockId := none }).invoked = [0, 1] := by decide

example : (checkBlockStatus (fun c => if c = 0 then CbAction.unsub 0 else CbAction.ret)
    (FetchResult.ok sampleData) sampleRandom
    { isMonitoring := true, monitoringInterval := some 0, callbacks := [0, 1], currentBlockId := none }).invoked = [0] := by decide

example : (checkBlockStatus (fun _ => CbAction.throws) FetchResult.fail sampleRandom
    { isMonitoring := true, monitoringInterval := some 0, callbacks := [0, 1], currentBlockId := none }).raised = true := by decide

/-! ## Helper lemmas about list access, `spliceOut`, and the fan-out loop -/

/-- Indexing past the end of the list yields the list's length as a bound. -/
theorem nthCb_none_length (l : List Nat) : ∀ k, nthCb l k = none → l.length ≤ k := by
  induction l with
  | nil => intro k _; simp
  | cons c rest ih =>
    intro k h
    cases k with
    | zero => simp [nthCb] at h
    | succ k => simpa using Nat.succ_le_succ (ih k h)

/-- A successfully indexed element is a member of the list. -/
theorem nthCb_some_mem (l : List Nat) : ∀ k c, nthCb l k = some c → c ∈ l := by
  induction l with
  | nil => intro k c h; simp [nthCb] at h
  | cons a rest ih =>
    intro k c h
    cases k with
    | zero => simp [nthCb] at h; simp [h]
    | succ k => exact List.mem_cons_of_mem a (ih k c h)

/-- Dropping past the end of the list yields the empty list. -/
theorem drop_of_le_length (l : List Nat) : ∀ k, l.length ≤ k → l.drop k = [] := by
  induction l with
  | nil => intro k _; simp
  | cons c rest ih =>
    intro k hk
    cases k with
    | zero => simp at hk
    | succ k => simpa using ih k (by simpa using hk)

/-- Dropping at a successfully indexed position peels off that element. -/
theorem drop_of_nthCb_some (l : List Nat) :
    ∀ k c, nthCb l k = some c → l.drop k = c :: l.drop (k + 1) := by
  induction l with
  | nil => intro k c h; simp [nthCb] at h
  | cons a rest ih =>
    intro k c h
    cases k with
    | zero => simp [nthCb] at h; simp [h]
    | succ k => simpa using ih k c h

/-- The `indexOf` accumulator only shifts the result. -/
theorem indexOfAux_shift (cb : Nat) (l : List Nat) :
    ∀ i, indexOfAux cb l i = (indexOfAux cb l 0).map (fun j => j + i) := by
  induction l with
  | nil => intro i; simp [indexOfAux]
  | cons c rest ih =>
    intro i
    by_cases hc : c = cb
    · simp [indexOfAux, hc]
    · simp only [indexOfAux, if_neg hc]
      rw [ih (i + 1), ih 1, Option.map_map]
      cases indexOfAux cb rest 0 with
      | none => simp
      | some j => simp [Function.comp]; omega

/-- Recursive characterisation of `spliceOut` (removal of the first
occurrence). -/
theorem spliceOut_cons (cb c : Nat) (rest : List Nat) :
    spliceOut cb (c :: rest) = if c = cb then rest else c :: spliceOut cb rest := by
  by_cases hc : c = cb
  · simp [spliceOut, indexOfAux, hc]
  · simp only [spliceOut, indexOfAux, if_neg hc]
    rw [indexOfAux_shift cb rest 1]
    cases indexOfAux cb rest 0 with
    | none => simp
    | some j => simp [List.eraseIdx]

/-- Unsubscribing a callback that is not registered leaves the list
unchanged. -/
theorem spliceOut_of_not_mem (cb : Nat) : ∀ (l : List Nat), cb ∉ l → spliceOut cb l = l := by
  intro l
  induction l with
  | nil => intro _; rfl
  | cons c rest ih =>
    intro h
    rw [spliceOut_cons]
    have hc : ¬ c = cb := fun hcc => h (by simp [hcc])
    rw [if_neg hc, ih (fun hm => h (List.mem_cons_of_mem c hm))]

/-- `spliceOut` removes exactly the first occurrence of the callback. -/
theorem spliceOut_append_first (cb : Nat) (l₂ : List Nat) :
    ∀ (l₁ : List Nat), cb ∉ l₁ → spliceOut cb (l₁ ++ cb :: l₂) = l₁ ++ l₂ := by
  intro l₁
  induction l₁ with
  | nil => intro _; simp [spliceOut_cons]
  | cons a rest ih =>
    intro h
    have ha : ¬ a = cb := fun hcc => h (by simp [hcc])
    simp only [List.cons_append, spliceOut_cons, if_neg ha]
    rw [ih (fun hm => h (List.mem_cons_of_mem a hm))]

/-- Filtering for throwing callbacks over a list of callbacks that all
return normally yields nothing. -/
theorem filter_throws_nil (env : Nat → CbAction) :
    ∀ (l : List Nat), (∀ c ∈ l, env c = CbAction.ret) →
    l.filter (fun c => env c == CbAction.throws) = [] := by
  intro l
  induction l with
  | nil => intro _; rfl
  | cons a rest ih =>
    intro h
    have ha : env a = CbAction.ret := h a (by simp)
    have hb : (env a == CbAction.throws) = false := by rw [ha]; rfl
    simp [List.filter, hb, ih (fun c hc => h c (List.mem_cons_of_mem a hc))]

/-- When no reachable callback unsubscribes (each one returns or, if the
per-callback catch is active, possibly throws), the fan-out loop walks the
array unchanged from index `k` on, invoking every remaining element in
order and catching every throw. -/
theorem fanOutAux_no_unsub (m : Bool) (env : Nat → CbAction) (cbs : List Nat)
    (h : ∀ c ∈ cbs, env c = CbAction.ret ∨ (m = true ∧ env c = CbAction.throws)) :
    ∀ (fuel k : Nat) (inv caught : List Nat), cbs.length ≤ k + fuel →
    fanOutAux m env fuel k cbs inv caught =
      { callbacks := cbs, invoked := inv ++ cbs.drop k
        caught := caught ++ (cbs.drop k).filter (fun c => env c == CbAction.throws)
        raised := false } := by
  intro fuel
  induction fuel with
  | zero =>
    intro k inv caught hk
    have hd : cbs.drop k = [] := drop_of_le_length cbs k (by omega)
    simp [fanOutAux, hd]
  | succ fuel ih =>
    intro k inv caught hk
    cases hc : nthCb cbs k with
    | none =>
      have hlen : cbs.length ≤ k := nthCb_none_length cbs k hc
      have hd : cbs.drop k = [] := drop_of_le_length cbs k hlen
      have hd2 : cbs.drop (k + 1) = [] := drop_of_le_length cbs (k + 1) (by omega)
      simp only [fanOutAux, hc]
      rw [ih (k + 1) inv caught (by omega)]
      simp [hd, hd2]
    | some c =>
      have hm : c ∈ cbs := nthCb_some_mem cbs k c hc
      have hd : cbs.drop k = c :: cbs.drop (k + 1) := drop_of_nthCb_some cbs k c hc
      rcases h c hm with hret | ⟨hmt, hthr⟩
      · have hb : (env c == CbAction.throws) = false := by rw [hret]; rfl
        simp only [fanOutAux, hc, hret]
        rw [ih (k + 1) (inv ++ [c]) caught (by omega)]
        simp [hd, List.filter, hb]
      · subst hmt
        have hb : (env c == CbAction.throws) = true := by rw [hthr]; rfl
        simp only [fanOutAux, hc, hthr, if_pos]
        rw [ih (k + 1) (inv ++ [c]) (caught ++ [c]) (by omega)]
        simp [hd, List.filter, hb]

/-- The fan-out over the whole array when no callback unsubscribes:
everything is invoked in order, throws are caught when the per-callback
catch is active, and nothing escapes. -/
theorem fanOut_no_unsub (m : Bool) (env : Nat → CbAction) (cbs : List Nat)
    (h : ∀ c ∈ cbs, env c = CbAction.ret ∨ (m = true ∧ env c = CbAction.throws)) :
    fanOut m env cbs =
      { callbacks := cbs, invoked := cbs
        caught := cbs.filter (fun c => env c == CbAction.throws)
        raised := false } := by
  have := fanOutAux_no_unsub m env cbs h cbs.length 0 [] [] (by omega)
  simpa [fanOut] using this

/-- The fan-out loop with the per-callback catch active never lets an
exception escape. -/
theorem fanOutAux_catch_raised_false (env : Nat → CbAction) :
    ∀ (fuel k : Nat) (cbs inv caught : List Nat),
    (fanOutAux true env fuel k cbs inv caught).raised = false := by
  intro fuel
  induction fuel with
  | zero => intro k cbs inv caught; rfl
  | succ fuel ih =>
    intro k cbs inv caught
    cases hc : nthCb cbs k with
    | none => simp only [fanOutAux, hc]; exact ih (k + 1) cbs inv caught
    | some c =>
      cases he : env c with
      | ret => simp only [fanOutAux, hc, he]; exact ih (k + 1) cbs (inv ++ [c]) caught
      | throws =>
        simp only [fanOutAux, hc, he, if_pos]
        exact ih (k + 1) cbs (inv ++ [c]) (caught ++ [c])
      | unsub t =>
        simp only [fanOutAux, hc, he]
        exact ih (k + 1) (spliceOut t cbs) (inv ++ [c]) caught

/-- When no callback at all throws, the fan-out loop never lets an
exception escape, with or without the per-callback catch. -/
theorem fanOutAux_no_throws_raised_false (m : Bool) (env : Nat → CbAction)
    (h : ∀ c, env c ≠ CbAction.throws) :
    ∀ (fuel k : Nat) (cbs inv caught : List Nat),
    (fanOutAux m env fuel k cbs inv caught).raised = false := by
  intro fuel
  induction fuel with
  | zero => intro k cbs inv caught; rfl
  | succ fuel ih =>
    intro k cbs inv caught
    cases hc : nthCb cbs k with
    | none => simp only [fanOutAux, hc]; exact ih (k + 1) cbs inv caught
    | some c =>
      cases he : env c with
      | ret => simp only [fanOutAux, hc, he]; exact ih (k + 1) cbs (inv ++ [c]) caught
      | throws => exact absurd he (h c)
      | unsub t =>
        simp only [fanOutAux, hc, he]
        exact ih (k + 1) (spliceOut t cbs) (inv ++ [c]) caught

/-- A fan-out without the per-callback catch whose first callback throws:
the exception escapes at once, the remaining callbacks are never invoked.  -/
theorem fanOut_head_throws (env : Nat → CbAction) (a : Nat) (l : List Nat)
    (h : env a = CbAction.throws) :
    fanOut false env (a :: l) =
      { callbacks := a :: l, invoked := [a], caught := [], raised := true } := by
  simp [fanOut, fanOutAux, nthCb, h]

/-! ## Branch lemmas for `checkBlockStatus` -/

/-- Successful fetch, successful response, changed identifier: the monitor
logs, stores the new identifier, marks the snapshot changed and fans out
with the per-callback catch. -/
theorem checkBlockStatus_ok_changed (env : Nat → CbAction) (r : PollRandom)
    (s : MonitorState) (data : BlockStatusResponse) (bi : BlockInfo)
    (hs : data.success = true) (hb : data.block_info = some bi)
    (hch : s.currentBlockId ≠ some bi.block_id) :
    checkBlockStatus env (FetchResult.ok data) r s =
      { state := { s with currentBlockId := some bi.block_id
                          callbacks := (fanOut true env s.callbacks).callbacks }
        invoked := (fanOut true env s.callbacks).invoked
        caught := (fanOut true env s.callbacks).caught
        raised := (fanOut true env s.callbacks).raised
        payload := some { bi with changed := true }
        logs := LogEvent.changedLog s.currentBlockId bi.block_id ::
                  (fanOut true env s.callbacks).caught.map LogEvent.callbackError } := by
  cases data with
  | mk succ binfo err =>
    simp only [BlockStatusResponse.success] at hs
    simp only [BlockStatusResponse.block_info] at hb
    subst hs; subst hb
    simp [checkBlockStatus, if_neg hch]

/-- Successful fetch, successful response, identifier unchanged: nothing
happens. -/
theorem checkBlockStatus_ok_same (env : Nat → CbAction) (r : PollRandom)
    (s : MonitorState) (data : BlockStatusResponse) (bi : BlockInfo)
    (hs : data.success = true) (hb : data.block_info = some bi)
    (hch : s.currentBlockId = some bi.block_id) :
    checkBlockStatus env (FetchResult.ok data) r s =
      { state := s, invoked := [], caught := [], raised := false, payload := none, logs := [] } := by
  cases data with
  | mk succ binfo err =>
    simp only [BlockStatusResponse.success] at hs
    simp only [BlockStatusResponse.block_info] at hb
    subst hs; subst hb
    simp [checkBlockStatus, if_pos hch]

/-- Failed fetch with a fresh mock identifier differing from the stored
one: the monitor stores the mock identifier and fans out without the
per-callback catch. -/
theorem checkBlockStatus_fail_changed (env : Nat → CbAction) (r : PollRandom)
    (s : MonitorState)
    (hch : s.currentBlockId ≠ some ("block_" ++ toString r.rid)) :
    checkBlockStatus env FetchResult.fail r s =
      { state := { s with currentBlockId := some ("block_" ++ toString r.rid)
                          callbacks := (fanOut false env s.callbacks).callbacks }
        invoked := (fanOut false env s.callbacks).invoked
        caught := (fanOut false env s.callbacks).caught
        raised := (fanOut false env s.callbacks).raised
        payload := some (mockBlockInfo s.currentBlockId r)
        logs := [LogEvent.mockLog] } := by
  have hid : (mockBlockInfo s.currentBlockId r).block_id = "block_" ++ toString r.rid := rfl
  simp [checkBlockStatus, hid, if_neg hch]

/-- Failed fetch whose fresh mock identifier happens to equal the stored
one: nothing happens beyond the log line. -/
theorem checkBlockStatus_fail_same (env : Nat → CbAction) (r : PollRandom)
    (s : MonitorState)
    (hch : s.currentBlockId = some ("block_" ++ toString r.rid)) :
    checkBlockStatus env FetchResult.fail r s =
      { state := s, invoked := [], caught := [], raised := false, payload := none
        logs := [LogEvent.mockLog] } := by
  have hid : (mockBlockInfo s.currentBlockId r).block_id = "block_" ++ toString r.rid := rfl
  simp [checkBlockStatus, hid, if_pos hch]

/-- After a successful poll carrying a payload, the stored identifier is
that payload's identifier, whichever branch was taken. -/
theorem currentBlockId_after_ok (env : Nat → CbAction) (r : PollRandom)
    (s : MonitorState) (data : BlockStatusResponse) (bi : BlockInfo)
    (hs : data.success = true) (hb : data.block_info = some bi) :
    (checkBlockStatus env (FetchResult.ok data) r s).state.currentBlockId =
      some bi.block_id := by
  by_cases hch : s.currentBlockId = some bi.block_id
  · rw [checkBlockStatus_ok_same env r s data bi hs hb hch]
    exact hch
  · rw [checkBlockStatus_ok_changed env r s data bi hs hb hch]

/-! ## Claims confirmed as stated -/

/-- Claim C6: for any two consecutive successful polls that return equal
identifiers, no observer is invoked on the second poll and the stored
last-seen identifier (indeed the whole monitor state) is left unchanged. -/
theorem c6_equal_ids_second_poll_silent
    (env1 env2 : Nat → CbAction) (r1 r2 : PollRandom) (s : MonitorState)
    (data1 data2 : BlockStatusResponse) (bi1 bi2 : BlockInfo)
    (h1s : data1.success = true) (h1b : data1.block_info = some bi1)
    (h2s : data2.success = true) (h2b : data2.block_info = some bi2)
    (heq : bi2.block_id = bi1.block_id) :
    (checkBlockStatus env2 (FetchResult.ok data2) r2
        (checkBlockStatus env1 (FetchResult.ok data1) r1 s).state).invoked = [] ∧
    (checkBlockStatus env2 (FetchResult.ok data2) r2
        (checkBlockStatus env1 (FetchResult.ok data1) r1 s).state).state =
      (checkBlockStatus env1 (FetchResult.ok data1) r1 s).state := by
  have h1 := currentBlockId_after_ok env1 r1 s data1 bi1 h1s h1b
  have heq2 : (checkBlockStatus env1 (FetchResult.ok data1) r1 s).state.currentBlockId =
      some bi2.block_id := by rw [h1, heq]
  rw [checkBlockStatus_ok_same env2 r2 _ data2 bi2 h2s h2b heq2]
  exact ⟨rfl, rfl⟩

/-- Witness for claim C6 at a concrete run: the same snapshot is fetched
twice in a row; the second poll invokes nobody and changes nothing. -/
theorem c6_witness :
    sampleData.success = true ∧ sampleData.block_info = some sampleBlockInfo ∧
    ((checkBlockStatus envRet (FetchResult.ok sampleData) sampleRandom
        (checkBlockStatus envRet (FetchResult.ok sampleData) sampleRandom
          (MonitorState.mk true (some 0) [0, 1] none)).state).invoked = [] ∧
     (checkBlockStatus envRet (FetchResult.ok sampleData) sampleRandom
        (checkBlockStatus envRet (FetchResult.ok sampleData) sampleRandom
          (MonitorState.mk true (some 0) [0, 1] none)).state).state =
        (checkBlockStatus envRet (FetchResult.ok sampleData) sampleRandom
          (MonitorState.mk true (some 0) [0, 1] none)).state) :=
  ⟨rfl, rfl,
    c6_equal_ids_second_poll_silent envRet envRet sampleRandom sampleRandom
      (MonitorState.mk true (some 0) [0, 1] none)
      sampleData sampleData sampleBlockInfo sampleBlockInfo rfl rfl rfl rfl rfl⟩

/-- Claim C8: calling start() while already running is a no-op apart from a
warning, and calling stop() while already stopped is a silent no-op; in
both cases the running flag, the timer handle, the observer list and the
last-seen identifier are all left unchanged. -/
theorem c8_start_stop_idempotent (s s' : MonitorState) (t : Nat) :
    (s.isMonitoring = true →
      startMonitoring t s =
        { state := s, logs := [LogEvent.alreadyActiveWarn]
          scheduled := none, immediatePoll := false }) ∧
    (s'.isMonitoring = false →
      stopMonitoring s' = { state := s', logs := [], cleared := none }) := by
  constructor
  · intro h; simp [startMonitoring, h]
  · intro h; simp [stopMonitoring, h]

/-- Witness for claim C8 at concrete states. -/
theorem c8_witness :
    (MonitorState.mk true (some 0) [3] (some "block_001")).isMonitoring = true ∧
    (MonitorState.mk false none [3] (some "block_001")).isMonitoring = false ∧
    startMonitoring 1 (MonitorState.mk true (some 0) [3] (some "block_001")) =
      { state := MonitorState.mk true (some 0) [3] (some "block_001")
        logs := [LogEvent.alreadyActiveWarn], scheduled := none, immediatePoll := false } ∧
    stopMonitoring (MonitorState.mk false none [3] (some "block_001")) =
      { state := MonitorState.mk false none [3] (some "block_001")
        logs := [], cleared := none } :=
  ⟨rfl, rfl,
    (c8_start_stop_idempotent (MonitorState.mk true (some 0) [3] (some "block_001"))
        (MonitorState.mk false none [3] (some "block_001")) 1).1 rfl,
    (c8_start_stop_idempotent (MonitorState.mk true (some 0) [3] (some "block_001"))
        (MonitorState.mk false none [3] (some "block_001")) 1).2 rfl⟩

/-- Claim C10: a successful fetch whose response reports failure or
carries no payload invokes no observer, synthesizes nothing, and leaves
the whole monitor state unchanged; only a warning is logged. -/
theorem c10_unsuccessful_response_frame
    (env : Nat → CbAction) (r : PollRandom) (s : MonitorState)
    (data : BlockStatusResponse)
    (h : data.success = false ∨ data.block_info = none) :
    checkBlockStatus env (FetchResult.ok data) r s =
      { state := s, invoked := [], caught := [], raised := false, payload := none
        logs := [LogEvent.statusWarn data.error] } := by
  cases data with
  | mk succ binfo err =>
    rcases h with h | h
    · simp only [BlockStatusResponse.success] at h
      subst h
      cases binfo <;> rfl
    · simp only [BlockStatusResponse.block_info] at h
      subst h
      cases succ <;> rfl

/-- Witness for claim C10 at a concrete response with `success: false`. -/
theorem c10_witness :
    (BlockStatusResponse.mk false none (some "boom")).success = false ∧
    checkBlockStatus envRet
        (FetchResult.ok (BlockStatusResponse.mk false none (some "boom"))) sampleRandom
        (MonitorState.mk true (some 0) [0, 1] (some "block_001")) =
      { state := MonitorState.mk true (some 0) [0, 1] (some "block_001")
        invoked := [], caught := [], raised := false, payload := none
        logs := [LogEvent.statusWarn (some "boom")] } :=
  ⟨rfl,
    c10_unsuccessful_response_frame envRet sampleRandom
      (MonitorState.mk true (some 0) [0, 1] (some "block_001"))
      (BlockStatusResponse.mk false none (some "boom")) (Or.inl rfl)⟩

/-- A halted world (no registered interval, monitor stopped) stays halted
under any event that is not a start() call, and no scheduled poll fires. -/
theorem stepEvent_halted (w : World) (e : Event)
    (ht : w.activeTimers = []) (hm : w.mon.isMonitoring = false)
    (he : e.isStart = false) :
    (stepEvent w e).activeTimers = [] ∧ (stepEvent w e).mon.isMonitoring = false ∧
    (stepEvent w e).pollsFired = w.pollsFired := by
  cases e with
  | tick t env fr r => simp [stepEvent, ht, hm]
  | callStart env fr r => simp [Event.isStart] at he
  | callStop => simp [stepEvent, stopMonitoring, hm, ht]
  | callSubscribe cb => simp [stepEvent, subscribe, ht, hm]
  | callUnsubscribe cb => simp [stepEvent, unsubscribe, ht, hm]

/-- Over a whole start-free event sequence, a halted world fires no
scheduled poll. -/
theorem foldl_halted_pollsFired (es : List Event) :
    ∀ (w : World), w.activeTimers = [] → w.mon.isMonitoring = false →
    (∀ e ∈ es, e.isStart = false) →
    (es.foldl stepEvent w).pollsFired = w.pollsFired := by
  induction es with
  | nil => intro w _ _ _; rfl
  | cons e rest ih =>
    intro w ht hm hes
    obtain ⟨h1, h2, h3⟩ := stepEvent_halted w e ht hm (hes e (List.mem_cons_self e rest))
    calc (List.foldl stepEvent w (e :: rest)).pollsFired
        = (rest.foldl stepEvent (stepEvent w e)).pollsFired := rfl
      _ = (stepEvent w e).pollsFired :=
          ih (stepEvent w e) h1 h2 (fun e' he' => hes e' (List.mem_cons_of_mem e he'))
      _ = w.pollsFired := h3

/-- Claim C9: after stop() returns on a running monitor, the interval
handle has been removed from the scheduler and the stored handle is
cleared, and over any subsequent start-free event sequence no scheduled
poll ever fires. -/
theorem c9_stop_cancels_timer (w : World) (t : Nat) (es : List Event)
    (hrun : w.mon.isMonitoring = true)
    (hint : w.mon.monitoringInterval = some t)
    (htimers : w.activeTimers = [t])
    (hes : ∀ e ∈ es, e.isStart = false) :
    (stepEvent w Event.callStop).activeTimers = [] ∧
    (stepEvent w Event.callStop).mon.monitoringInterval = none ∧
    (es.foldl stepEvent (stepEvent w Event.callStop)).pollsFired = w.pollsFired := by
  have hstep : stepEvent w Event.callStop =
      { w with mon := { w.mon with isMonitoring := false, monitoringInterval := none }
               activeTimers := w.activeTimers.erase t } := by
    simp [stepEvent, stopMonitoring, hrun, hint]
  have ht0 : (stepEvent w Event.callStop).activeTimers = [] := by
    rw [hstep, htimers]; simp
  have hm0 : (stepEvent w Event.callStop).mon.isMonitoring = false := by rw [hstep]
  refine ⟨ht0, ?_, ?_⟩
  · rw [hstep]
  · rw [foldl_halted_pollsFired es _ ht0 hm0 hes, hstep]

/-- Witness for claim C9 at a concrete run: a running monitor with handle
0 is stopped, then a subscription and a tick of the cancelled timer
arrive; the tick does not fire. -/
theorem c9_witness :
    (World.mk (MonitorState.mk true (some 0) [1] (some "block_001")) [0] 1 4).mon.isMonitoring
        = true ∧
    ((stepEvent (World.mk (MonitorState.mk true (some 0) [1] (some "block_001")) [0] 1 4)
        Event.callStop).activeTimers = [] ∧
     (stepEvent (World.mk (MonitorState.mk true (some 0) [1] (some "block_001")) [0] 1 4)
        Event.callStop).mon.monitoringInterval = none ∧
     (List.foldl stepEvent
        (stepEvent (World.mk (MonitorState.mk true (some 0) [1] (some "block_001")) [0] 1 4)
          Event.callStop)
        [Event.callSubscribe 2, Event.tick 0 envRet FetchResult.fail sampleRandom,
         Event.callStop]).pollsFired = 4) :=
  ⟨rfl,
    c9_stop_cancels_timer
      (World.mk (MonitorState.mk true (some 0) [1] (some "block_001")) [0] 1 4) 0
      [Event.callSubscribe 2, Event.tick 0 envRet FetchResult.fail sampleRandom,
       Event.callStop]
      rfl rfl rfl (by decide)⟩

/-! ## Claims corrected against the code -/

/-- One `forEach` step on a callback that unsubscribes a target: the
target's first occurrence is spliced out of the live array before the
loop moves on. -/
theorem fanOutAux_step_unsub (m : Bool) (env : Nat → CbAction) (fuel k : Nat)
    (cbs inv caught : List Nat) (c t : Nat)
    (hc : nthCb cbs k = some c) (he : env c = CbAction.unsub t) :
    fanOutAux m env (fuel + 1) k cbs inv caught =
      fanOutAux m env fuel (k + 1) (spliceOut t cbs) (inv ++ [c]) caught := by
  simp only [fanOutAux, hc, he]

/-- Counterexample to claim C1 as stated: on the fetch-failure fallback
path an observer exception is not caught.  With observers 0 and 1
subscribed and observer 0 throwing, the exception escapes the poll cycle
(`raised = true`) and observer 1 is never invoked. -/
theorem c1_counterexample :
    (checkBlockStatus (fun c => if c = 0 then CbAction.throws else CbAction.ret)
        FetchResult.fail sampleRandom
        (MonitorState.mk true (some 0) [0, 1] none)).raised = true ∧
    (checkBlockStatus (fun c => if c = 0 then CbAction.throws else CbAction.ret)
        FetchResult.fail sampleRandom
        (MonitorState.mk true (some 0) [0, 1] none)).invoked = [0] := by decide

/-- Claim C1 (amended): on the successful-fetch path an observer exception
is caught and reported per-observer, every observer is still invoked in
order, and the cycle does not fail; on the fetch-failure fallback path the
fan-out has no per-observer catch, so the first throwing observer's
exception escapes the poll cycle and the remaining observers are not
invoked. -/
theorem c1_amended_observer_isolation
    (env : Nat → CbAction) (s : MonitorState) (r : PollRandom)
    (data : BlockStatusResponse) (bi : BlockInfo)
    (hs : data.success = true) (hb : data.block_info = some bi)
    (hch : s.currentBlockId ≠ some bi.block_id)
    (henv : ∀ c ∈ s.callbacks, env c = CbAction.ret ∨ env c = CbAction.throws) :
    ((checkBlockStatus env (FetchResult.ok data) r s).raised = false ∧
     (checkBlockStatus env (FetchResult.ok data) r s).invoked = s.callbacks ∧
     (checkBlockStatus env (FetchResult.ok data) r s).caught =
       s.callbacks.filter (fun c => env c == CbAction.throws)) ∧
    (∀ (env' : Nat → CbAction) (a : Nat) (l : List Nat) (s' : MonitorState) (r' : PollRandom),
      s'.callbacks = a :: l → env' a = CbAction.throws →
      s'.currentBlockId ≠ some ("block_" ++ toString r'.rid) →
      (checkBlockStatus env' FetchResult.fail r' s').raised = true ∧
      (checkBlockStatus env' FetchResult.fail r' s').invoked = [a]) := by
  constructor
  · rw [checkBlockStatus_ok_changed env r s data bi hs hb hch]
    have hfo := fanOut_no_unsub true env s.callbacks
      (fun c hc => (henv c hc).imp id (fun h => ⟨rfl, h⟩))
    simp [hfo]
  · intro env' a l s' r' hcbs henv' hch'
    rw [checkBlockStatus_fail_changed env' r' s' hch', hcbs,
      fanOut_head_throws env' a l henv']
    exact ⟨rfl, rfl⟩

/-- Witness for the amended claim C1 at a concrete run: on the success
path observer 0 throws, its exception is caught, and observer 1 still
runs. -/
theorem c1_amended_witness :
    (MonitorState.mk true (some 0) [0, 1] none).currentBlockId
        ≠ some sampleBlockInfo.block_id ∧
    (checkBlockStatus (fun c => if c = 0 then CbAction.throws else CbAction.ret)
        (FetchResult.ok sampleData) sampleRandom
        (MonitorState.mk true (some 0) [0, 1] none)).raised = false ∧
    (checkBlockStatus (fun c => if c = 0 then CbAction.throws else CbAction.ret)
        (FetchResult.ok sampleData) sampleRandom
        (MonitorState.mk true (some 0) [0, 1] none)).invoked = [0, 1] ∧
    (checkBlockStatus (fun c => if c = 0 then CbAction.throws else CbAction.ret)
        (FetchResult.ok sampleData) sampleRandom
        (MonitorState.mk true (some 0) [0, 1] none)).caught = [0] :=
  ⟨by decide,
   (c1_amended_observer_isolation (fun c => if c = 0 then CbAction.throws else CbAction.ret)
      (MonitorState.mk true (some 0) [0, 1] none) sampleRandom sampleData sampleBlockInfo
      rfl rfl (by decide) (by decide)).1.1,
   (c1_amended_observer_isolation (fun c => if c = 0 then CbAction.throws else CbAction.ret)
      (MonitorState.mk true (some 0) [0, 1] none) sampleRandom sampleData sampleBlockInfo
      rfl rfl (by decide) (by decide)).1.2.1,
   ((c1_amended_observer_isolation (fun c => if c = 0 then CbAction.throws else CbAction.ret)
      (MonitorState.mk true (some 0) [0, 1] none) sampleRandom sampleData sampleBlockInfo
      rfl rfl (by decide) (by decide)).1.2.2).trans (by decide)⟩

/-- Counterexample to claim C2 as stated: a poll cycle whose fetch fails
can raise past the boundary of `checkBlockStatus` (rejecting its promise)
when an observer throws during the uncaught fallback fan-out. -/
theorem c2_counterexample :
    (checkBlockStatus (fun _ => CbAction.throws) FetchResult.fail sampleRandom
        (MonitorState.mk true (some 0) [4] none)).raised = true := by decide

/-- Claim C2 (amended): when the fetch or parse fails, the error branch
substitutes synthesized data, and provided no observer throws during the
fallback fan-out the poll cycle does not raise; on the successful-fetch
path the poll cycle never raises, whatever the observers do. -/
theorem c2_amended_fetch_failure_no_raise
    (env : Nat → CbAction) (s : MonitorState) (r : PollRandom)
    (hthrow : ∀ c, env c ≠ CbAction.throws) :
    (checkBlockStatus env FetchResult.fail r s).raised = false ∧
    (s.currentBlockId ≠ some ("block_" ++ toString r.rid) →
      (checkBlockStatus env FetchResult.fail r s).payload =
        some (mockBlockInfo s.currentBlockId r)) ∧
    (∀ (env' : Nat → CbAction) (data : BlockStatusResponse) (r' : PollRandom)
        (s' : MonitorState),
      (checkBlockStatus env' (FetchResult.ok data) r' s').raised = false) := by
  refine ⟨?_, ?_, ?_⟩
  · by_cases hch : s.currentBlockId = some ("block_" ++ toString r.rid)
    · rw [checkBlockStatus_fail_same env r s hch]
    · rw [checkBlockStatus_fail_changed env r s hch]
      exact fanOutAux_no_throws_raised_false false env hthrow
        s.callbacks.length 0 s.callbacks [] []
  · intro hch
    rw [checkBlockStatus_fail_changed env r s hch]
  · intro env' data r' s'
    cases data with
    | mk succ binfo err =>
      cases succ with
      | false => cases binfo <;> rfl
      | true =>
        cases binfo with
        | none => rfl
        | some bi =>
          by_cases hch : s'.currentBlockId = some bi.block_id
          · rw [checkBlockStatus_ok_same env' r' s' ⟨true, some bi, err⟩ bi rfl rfl hch]
          · rw [checkBlockStatus_ok_changed env' r' s' ⟨true, some bi, err⟩ bi rfl rfl hch]
            exact fanOutAux_catch_raised_false env' s'.callbacks.length 0 s'.callbacks [] []

/-- Witness for the amended claim C2 at a concrete run: the fetch fails,
the single observer returns normally, nothing raises and the synthesized
snapshot is delivered. -/
theorem c2_amended_witness :
    (checkBlockStatus envRet FetchResult.fail sampleRandom
        (MonitorState.mk true (some 0) [4] none)).raised = false ∧
    (checkBlockStatus envRet FetchResult.fail sampleRandom
        (MonitorState.mk true (some 0) [4] none)).payload =
      some (mockBlockInfo none sampleRandom) :=
  ⟨(c2_amended_fetch_failure_no_raise envRet (MonitorState.mk true (some 0) [4] none)
      sampleRandom (by intro c; simp [envRet])).1,
   (c2_amended_fetch_failure_no_raise envRet (MonitorState.mk true (some 0) [4] none)
      sampleRandom (by intro c; simp [envRet])).2.1 (by decide)⟩

/-- Counterexample to claim C3 as stated: observers 0 and 1 are
subscribed; during the fan-out observer 0 unsubscribes itself.  Observer 1
was subscribed when the fan-out began, yet is not invoked in that fan-out
even though it is still subscribed afterwards — so neither disjunct of the
claim holds. -/
theorem c3_counterexample :
    (checkBlockStatus (fun c => if c = 0 then CbAction.unsub 0 else CbAction.ret)
        (FetchResult.ok sampleData) sampleRandom
        (MonitorState.mk true (some 0) [0, 1] none)).invoked = [0] ∧
    1 ∉ (checkBlockStatus (fun c => if c = 0 then CbAction.unsub 0 else CbAction.ret)
        (FetchResult.ok sampleData) sampleRandom
        (MonitorState.mk true (some 0) [0, 1] none)).invoked ∧
    (checkBlockStatus (fun c => if c = 0 then CbAction.unsub 0 else CbAction.ret)
        (FetchResult.ok sampleData) sampleRandom
        (MonitorState.mk true (some 0) [0, 1] none)).state.callbacks = [1] := by decide

/-- Claim C3 (amended): unsubscribing during a notification fan-out takes
effect immediately on the live observer array, and because the `forEach`
index is not adjusted, the observer that follows the removed position is
skipped in that same fan-out: when the first observer unsubscribes itself
and everyone else returns normally, the second observer is skipped (while
remaining subscribed) and the rest are invoked. -/
theorem c3_amended_unsub_during_fanout
    (env : Nat → CbAction) (s : MonitorState) (r : PollRandom)
    (data : BlockStatusResponse) (bi : BlockInfo) (a b : Nat) (rest : List Nat)
    (hs : data.success = true) (hb : data.block_info = some bi)
    (hch : s.currentBlockId ≠ some bi.block_id)
    (hcbs : s.callbacks = a :: b :: rest)
    (henva : env a = CbAction.unsub a)
    (henvr : ∀ c ∈ b :: rest, env c = CbAction.ret)
    (hab : b ≠ a) (hbr : b ∉ rest) :
    (checkBlockStatus env (FetchResult.ok data) r s).invoked = a :: rest ∧
    b ∉ (checkBlockStatus env (FetchResult.ok data) r s).invoked ∧
    (checkBlockStatus env (FetchResult.ok data) r s).state.callbacks = b :: rest := by
  have hsp : spliceOut a (a :: b :: rest) = b :: rest := by
    rw [spliceOut_cons]; simp
  have hrest : ∀ c ∈ b :: rest, env c = CbAction.ret ∨ (true = true ∧ env c = CbAction.throws) :=
    fun c hc => Or.inl (henvr c hc)
  have hfil : rest.filter (fun c => env c == CbAction.throws) = [] :=
    filter_throws_nil env rest (fun c hc => henvr c (List.mem_cons_of_mem b hc))
  have h0 : fanOut true env (a :: b :: rest) =
      fanOutAux true env (rest.length + 1) 1 (spliceOut a (a :: b :: rest)) ([] ++ [a]) [] :=
    fanOutAux_step_unsub true env (rest.length + 1) 0 (a :: b :: rest) [] [] a a rfl henva
  have hfo : fanOut true env (a :: b :: rest) =
      { callbacks := b :: rest, invoked := a :: rest, caught := [], raised := false } := by
    rw [h0, hsp,
      fanOutAux_no_unsub true env (b :: rest) hrest (rest.length + 1) 1 ([] ++ [a]) []
        (by simp only [List.length_cons]; omega)]
    simp [hfil]
  rw [checkBlockStatus_ok_changed env r s data bi hs hb hch, hcbs, hfo]
  refine ⟨rfl, ?_, rfl⟩
  simp [hab, hbr]

/-- Witness for the amended claim C3 at a concrete run: observers 2, 3 and
4 are subscribed, observer 2 unsubscribes itself; observers 2 and 4 run,
observer 3 is skipped although it stays subscribed. -/
theorem c3_amended_witness :
    (MonitorState.mk true (some 0) [2, 3, 4] none).callbacks = 2 :: 3 :: [4] ∧
    (checkBlockStatus (fun c => if c = 2 then CbAction.unsub 2 else CbAction.ret)
        (FetchResult.ok sampleData) sampleRandom
        (MonitorState.mk true (some 0) [2, 3, 4] none)).invoked = 2 :: [4] ∧
    3 ∉ (checkBlockStatus (fun c => if c = 2 then CbAction.unsub 2 else CbAction.ret)
        (FetchResult.ok sampleData) sampleRandom
        (MonitorState.mk true (some 0) [2, 3, 4] none)).invoked ∧
    (checkBlockStatus (fun c => if c = 2 then CbAction.unsub 2 else CbAction.ret)
        (FetchResult.ok sampleData) sampleRandom
        (MonitorState.mk true (some 0) [2, 3, 4] none)).state.callbacks = 3 :: [4] :=
  ⟨rfl,
   (c3_amended_unsub_during_fanout (fun c => if c = 2 then CbAction.unsub 2 else CbAction.ret)
      (MonitorState.mk true (some 0) [2, 3, 4] none) sampleRandom sampleData sampleBlockInfo
      2 3 [4] rfl rfl (by decide) rfl (by decide) (by decide) (by decide) (by decide)).1,
   (c3_amended_unsub_during_fanout (fun c => if c = 2 then CbAction.unsub 2 else CbAction.ret)
      (MonitorState.mk true (some 0) [2, 3, 4] none) sampleRandom sampleData sampleBlockInfo
      2 3 [4] rfl rfl (by decide) rfl (by decide) (by decide) (by decide) (by decide)).2.1,
   (c3_amended_unsub_during_fanout (fun c => if c = 2 then CbAction.unsub 2 else CbAction.ret)
      (MonitorState.mk true (some 0) [2, 3, 4] none) sampleRandom sampleData sampleBlockInfo
      2 3 [4] rfl rfl (by decide) rfl (by decide) (by decide) (by decide) (by decide)).2.2⟩

/-- Counterexample to claim C4 as stated: with stored identifier
`block_5`, first draw 7 and second draw 5, the fallback snapshot's
identifier `block_7` differs from the stored one and a change is
registered (the identifier is updated, the observer is notified), yet the
snapshot's `changed` flag is `false`, because the code computes it from
the second, independent random draw. -/
theorem c4_counterexample :
    (checkBlockStatus envRet FetchResult.fail sampleRandom
        (MonitorState.mk true (some 0) [0] (some "block_5"))).state.currentBlockId
      = some "block_7" ∧
    (checkBlockStatus envRet FetchResult.fail sampleRandom
        (MonitorState.mk true (some 0) [0] (some "block_5"))).invoked = [0] ∧
    (checkBlockStatus envRet FetchResult.fail sampleRandom
        (MonitorState.mk true (some 0) [0] (some "block_5"))).payload =
      some (mockBlockInfo (some "block_5") sampleRandom) ∧
    (mockBlockInfo (some "block_5") sampleRandom).changed = false ∧
    (mockBlockInfo (some "block_5") sampleRandom).block_id ≠ "block_5" := by decide

/-- Claim C4 (amended): on every failed-fetch poll a fallback snapshot
with a freshly randomized identifier is synthesized; the stored identifier
is updated and the observers are notified exactly when the snapshot's own
identifier differs from the previously stored one; the snapshot's
`changed` flag, however, is computed by comparing the stored identifier
against a second, independently drawn random identifier, and may therefore
disagree with whether a change was registered. -/
theorem c4_amended_fallback_change_trigger
    (env : Nat → CbAction) (s : MonitorState) (r : PollRandom)
    (henv : ∀ c, env c = CbAction.ret) :
    (s.currentBlockId ≠ some ("block_" ++ toString r.rid) →
      (checkBlockStatus env FetchResult.fail r s).state.currentBlockId =
          some ("block_" ++ toString r.rid) ∧
      (checkBlockStatus env FetchResult.fail r s).invoked = s.callbacks ∧
      (checkBlockStatus env FetchResult.fail r s).payload =
          some (mockBlockInfo s.currentBlockId r)) ∧
    (s.currentBlockId = some ("block_" ++ toString r.rid) →
      (checkBlockStatus env FetchResult.fail r s).state = s ∧
      (checkBlockStatus env FetchResult.fail r s).invoked = []) ∧
    ((mockBlockInfo s.currentBlockId r).changed = true ↔
      s.currentBlockId ≠ some ("block_" ++ toString r.rchg)) := by
  refine ⟨?_, ?_, ?_⟩
  · intro hch
    rw [checkBlockStatus_fail_changed env r s hch]
    have hfo := fanOut_no_unsub false env s.callbacks (fun c _ => Or.inl (henv c))
    refine ⟨rfl, ?_, rfl⟩
    simp [hfo]
  · intro hch
    rw [checkBlockStatus_fail_same env r s hch]
    exact ⟨rfl, rfl⟩
  · simp [mockBlockInfo]

/-- Witness for the amended claim C4 at a concrete run: no identifier is
stored yet, the mock identifier `block_7` is adopted and the observer is
notified; the `changed` flag agrees with the second draw, not the first. -/
theorem c4_amended_witness :
    (checkBlockStatus envRet FetchResult.fail sampleRandom
        (MonitorState.mk true (some 0) [0] none)).state.currentBlockId =
      some ("block_" ++ toString sampleRandom.rid) ∧
    (checkBlockStatus envRet FetchResult.fail sampleRandom
        (MonitorState.mk true (some 0) [0] none)).invoked = [0] ∧
    (checkBlockStatus envRet FetchResult.fail sampleRandom
        (MonitorState.mk true (some 0) [0] none)).payload =
      some (mockBlockInfo none sampleRandom) ∧
    ((mockBlockInfo none sampleRandom).changed = true ↔
      (none : Option String) ≠ some ("block_" ++ toString sampleRandom.rchg)) :=
  ⟨((c4_amended_fallback_change_trigger envRet (MonitorState.mk true (some 0) [0] none)
      sampleRandom (fun c => rfl)).1 (by decide)).1,
   ((c4_amended_fallback_change_trigger envRet (MonitorState.mk true (some 0) [0] none)
      sampleRandom (fun c => rfl)).1 (by decide)).2.1,
   ((c4_amended_fallback_change_trigger envRet (MonitorState.mk true (some 0) [0] none)
      sampleRandom (fun c => rfl)).1 (by decide)).2.2,
   (c4_amended_fallback_change_trigger envRet (MonitorState.mk true (some 0) [0] none)
      sampleRandom (fun c => rfl)).2.2⟩

/-- Counterexample to claim C5 as stated: observers 0, 1 and 2 are
subscribed and the identifiers of two consecutive polls differ; observer 1
unsubscribes observer 0 during the fan-out, so observer 2 — subscribed at
that moment and still subscribed afterwards — is never invoked. -/
theorem c5_counterexample :
    (checkBlockStatus (fun c => if c = 1 then CbAction.unsub 0 else CbAction.ret)
        (FetchResult.ok sampleData) sampleRandom
        (MonitorState.mk true (some 0) [0, 1, 2] none)).invoked = [0, 1] ∧
    2 ∈ (checkBlockStatus (fun c => if c = 1 then CbAction.unsub 0 else CbAction.ret)
        (FetchResult.ok sampleData) sampleRandom
        (MonitorState.mk true (some 0) [0, 1, 2] none)).state.callbacks ∧
    2 ∉ (checkBlockStatus (fun c => if c = 1 then CbAction.unsub 0 else CbAction.ret)
        (FetchResult.ok sampleData) sampleRandom
        (MonitorState.mk true (some 0) [0, 1, 2] none)).invoked := by decide

/-- Claim C5 (amended): provided no observer's callback unsubscribes
anyone during the fan-out (each observer returns or throws), two
consecutive polls with differing identifiers invoke every observer
subscribed at that moment exactly once with the new snapshot (its
`changed` flag set), synchronously in subscription order, and the new
identifier is stored. -/
theorem c5_amended_fanout_exactly_once
    (env : Nat → CbAction) (s : MonitorState) (r : PollRandom)
    (data : BlockStatusResponse) (bi : BlockInfo)
    (hs : data.success = true) (hb : data.block_info = some bi)
    (hch : s.currentBlockId ≠ some bi.block_id)
    (henv : ∀ c ∈ s.callbacks, env c = CbAction.ret ∨ env c = CbAction.throws) :
    (checkBlockStatus env (FetchResult.ok data) r s).invoked = s.callbacks ∧
    (checkBlockStatus env (FetchResult.ok data) r s).payload =
      some { bi with changed := true } ∧
    (checkBlockStatus env (FetchResult.ok data) r s).state.currentBlockId =
      some bi.block_id := by
  rw [checkBlockStatus_ok_changed env r s data bi hs hb hch]
  have hfo := fanOut_no_unsub true env s.callbacks
    (fun c hc => (henv c hc).imp id (fun h => ⟨rfl, h⟩))
  simp [hfo]

/-- Witness for the amended claim C5 at a concrete run with two
well-behaved observers. -/
theorem c5_amended_witness :
    (checkBlockStatus envRet (FetchResult.ok sampleData) sampleRandom
        (MonitorState.mk true (some 0) [5, 6] none)).invoked = [5, 6] ∧
    (checkBlockStatus envRet (FetchResult.ok sampleData) sampleRandom
        (MonitorState.mk true (some 0) [5, 6] none)).payload =
      some { sampleBlockInfo with changed := true } ∧
    (checkBlockStatus envRet (FetchResult.ok sampleData) sampleRandom
        (MonitorState.mk true (some 0) [5, 6] none)).state.currentBlockId =
      some sampleBlockInfo.block_id :=
  ⟨(c5_amended_fanout_exactly_once envRet (MonitorState.mk true (some 0) [5, 6] none)
      sampleRandom sampleData sampleBlockInfo rfl rfl (by decide) (by decide)).1,
   (c5_amended_fanout_exactly_once envRet (MonitorState.mk true (some 0) [5, 6] none)
      sampleRandom sampleData sampleBlockInfo rfl rfl (by decide) (by decide)).2.1,
   (c5_amended_fanout_exactly_once envRet (MonitorState.mk true (some 0) [5, 6] none)
      sampleRandom sampleData sampleBlockInfo rfl rfl (by decide) (by decide)).2.2⟩

/-- Counterexample to claim C7 as stated: subscribe the same callback
twice, then call the first returned unsubscribe function twice.  The
second call is not a no-op: it removes the remaining duplicate, so
unsubscribing twice differs from unsubscribing once. -/
theorem c7_counterexample :
    unsubscribe 5 (unsubscribe 5 (subscribe 5 (subscribe 5
        (MonitorState.mk false none [] none)))) ≠
      unsubscribe 5 (subscribe 5 (subscribe 5 (MonitorState.mk false none [] none))) := by
  decide

/-- Claim C7 (amended): the unsubscribe function returned by
`subscribe(observer)` removes the first occurrence of that observer from
the registry; when the observer is no longer present a further call leaves
the state unchanged — so a second call is a no-op exactly when no
occurrence of the same callback remains, and in particular double
unsubscribe is idempotent whenever the callback was subscribed at most
once. -/
theorem c7_amended_unsubscribe_first_occurrence
    (cb : Nat) (l₁ l₂ : List Nat) (s s' : MonitorState)
    (hfirst : cb ∉ l₁) (hcbs : s.callbacks = l₁ ++ cb :: l₂)
    (habsent : cb ∉ s'.callbacks) :
    (unsubscribe cb s).callbacks = l₁ ++ l₂ ∧
    unsubscribe cb s' = s' ∧
    (cb ∉ l₂ → unsubscribe cb (unsubscribe cb s) = unsubscribe cb s) := by
  have h1 : (unsubscribe cb s).callbacks = l₁ ++ l₂ := by
    simp only [unsubscribe, hcbs]
    exact spliceOut_append_first cb l₂ l₁ hfirst
  refine ⟨h1, ?_, ?_⟩
  · have h2 : spliceOut cb s'.callbacks = s'.callbacks :=
      spliceOut_of_not_mem cb _ habsent
    simp [unsubscribe, h2]
  · intro h3
    have h1' : spliceOut cb s.callbacks = l₁ ++ l₂ := by
      simpa only [unsubscribe] using h1
    have hnot : cb ∉ spliceOut cb s.callbacks := by
      rw [h1']
      simp [List.mem_append, hfirst, h3]
    have h2 : spliceOut cb (spliceOut cb s.callbacks) = spliceOut cb s.callbacks :=
      spliceOut_of_not_mem cb _ hnot
    simp [unsubscribe, h2]

/-- Witness for the amended claim C7 at concrete states: with registry
`[9, 5]` unsubscribing 5 leaves `[9]`, a second unsubscribe is a no-op,
and on a registry without 5 unsubscribing changes nothing. -/
theorem c7_amended_witness :
    (5 : Nat) ∉ [9] ∧
    (unsubscribe 5 (MonitorState.mk false none [9, 5] none)).callbacks = [9] ++ [] ∧
    unsubscribe 5 (MonitorState.mk false none [9] none) =
      MonitorState.mk false none [9] none ∧
    unsubscribe 5 (unsubscribe 5 (MonitorState.mk false none [9, 5] none)) =
      unsubscribe 5 (MonitorState.mk false none [9, 5] none) :=
  ⟨by decide,
   (c7_amended_unsubscribe_first_occurrence 5 [9] [] (MonitorState.mk false none [9, 5] none)
      (MonitorState.mk false none [9] none) (by decide) rfl (by decide)).1,
   (c7_amended_unsubscribe_first_occurrence 5 [9] [] (MonitorState.mk false none [9, 5] none)
      (MonitorState.mk false none [9] none) (by decide) rfl (by decide)).2.1,
   (c7_amended_unsubscribe_first_occurrence 5 [9] [] (MonitorState.mk false none [9, 5] none)
      (MonitorState.mk false none [9] none) (by decide) rfl (by decide)).2.2 (by decide)⟩
